import Mathlib

/-!
Verification of the idempotency enforcement protocol of the
Go-Idempotency-with-Redis service.

The development is a shallow embedding of the relevant Go code:

* pkg/util/hash-util/sha256.go       — Hash256Bytes (SHA-256 + hex)
* pkg/middleware/idempotency         — Enforce (the gin middleware)
* internal/service (transaction)     — transactionService.CreateTransaction
* internal/service (idempotency)     — idempotencyCacheService.CreateIdempotencyCache
* internal/repository                — idempotencyCacheRepository (list-backed)
* internal/handler (transaction)     — TransactionHandler.CreateTransaction
* pkg/util/redis-util/object.go      — GetJSON / SetJSON against a Redis model
* internal/entity                    — IdempotencyCache, Transaction

Machine integers are modelled as Nat with explicit reduction mod 2^32 where
the Go code relies on 32-bit wrap-around (inside SHA-256).  Timestamps are
Int nanoseconds (Go time.Time / time.Duration).  Fallible Go calls return
Except / Option.  External stores (Redis, Postgres) are explicit state
values threaded through the functions, with Boolean outage flags modelling
store-level failures of the external system.
-/

set_option maxRecDepth 100000

/-! ### SHA-256 (crypto/sha256) over byte lists -/

/-- Reduce a natural number to a 32-bit word, modelling Go uint32 wrap-around. -/
def w32 (n : Nat) : Nat := n % 4294967296

/-- Right-rotation of a 32-bit word by n bits (0 < n < 32), arithmetically. -/
def rotr32 (x n : Nat) : Nat := x / 2 ^ n + x % 2 ^ n * 2 ^ (32 - n)

/-- Logical right shift of a 32-bit word. -/
def shr32 (x n : Nat) : Nat := x / 2 ^ n

/-- SHA-256 big sigma 0. -/
def bSig0 (x : Nat) : Nat := rotr32 x 2 ^^^ rotr32 x 13 ^^^ rotr32 x 22

/-- SHA-256 big sigma 1. -/
def bSig1 (x : Nat) : Nat := rotr32 x 6 ^^^ rotr32 x 11 ^^^ rotr32 x 25

/-- SHA-256 small sigma 0. -/
def sSig0 (x : Nat) : Nat := rotr32 x 7 ^^^ rotr32 x 18 ^^^ shr32 x 3

/-- SHA-256 small sigma 1. -/
def sSig1 (x : Nat) : Nat := rotr32 x 17 ^^^ rotr32 x 19 ^^^ shr32 x 10

/-- The 64 SHA-256 round constants of FIPS 180-4, written in decimal. -/
def shaK : List Nat :=
  [1116352408, 1899447441, 3049323471, 3921009573, 961987163,
   1508970993, 2453635748, 2870763221, 3624381080, 310598401,
   607225278, 1426881987, 1925078388, 2162078206, 2614888103,
   3248222580, 3835390401, 4022224774, 264347078, 604807628,
   770255983, 1249150122, 1555081692, 1996064986, 2554220882,
   2821834349, 2952996808, 3210313671, 3336571891, 3584528711,
   113926993, 338241895, 666307205, 773529912, 1294757372,
   1396182291, 1695183700, 1986661051, 2177026350, 2456956037,
   2730485921, 2820302411, 3259730800, 3345764771, 3516065817,
   3600352804, 4094571909, 275423344, 430227734, 506948616,
   659060556, 883997877, 958139571, 1322822218, 1537002063,
   1747873779, 1955562222, 2024104815, 2227730452, 2361852424,
   2428436474, 2756734187, 3204031479, 3329325298]

/-- The eight working variables of the SHA-256 compression function. -/
structure Sha8 where
  a : Nat
  b : Nat
  c : Nat
  d : Nat
  e : Nat
  f : Nat
  g : Nat
  h : Nat
deriving Repr, DecidableEq

/-- Initial SHA-256 hash state of FIPS 180-4, written in decimal. -/
def shaInit : Sha8 :=
  { a := 1779033703, b := 3144134277, c := 1013904242, d := 2773480762,
    e := 1359893119, f := 2600822924, g := 528734635, h := 1541459225 }

/-- One round of the SHA-256 compression function with round constant ki
and schedule word wi. -/
def shaRound (s : Sha8) (ki wi : Nat) : Sha8 :=
  let ch := (s.e &&& s.f) ^^^ ((4294967295 - s.e) &&& s.g)
  let t1 := w32 (s.h + bSig1 s.e + ch + ki + wi)
  let maj := (s.a &&& s.b) ^^^ (s.a &&& s.c) ^^^ (s.b &&& s.c)
  let t2 := w32 (bSig0 s.a + maj)
  { a := w32 (t1 + t2), b := s.a, c := s.b, d := s.c,
    e := w32 (s.d + t1), f := s.e, g := s.f, h := s.g }

/-- Big-endian 32-bit words of a 64-byte block. -/
def wordsOfBlock : List Nat → List Nat
  | b0 :: b1 :: b2 :: b3 :: rest =>
      (((b0 * 256 + b1) * 256 + b2) * 256 + b3) :: wordsOfBlock rest
  | _ => []

/-- Extend the 16 block words by k additional schedule words. -/
def extendW (ws : List Nat) : Nat → List Nat
  | 0 => ws
  | Nat.succ k =>
      let n := ws.length
      let nw := w32 (sSig1 (ws.getD (n - 2) 0) + ws.getD (n - 7) 0 +
                     sSig0 (ws.getD (n - 15) 0) + ws.getD (n - 16) 0)
      extendW (ws ++ [nw]) k

/-- Compress one 64-byte block into the running hash state. -/
def compressBlock (st : Sha8) (block : List Nat) : Sha8 :=
  let ws := extendW (wordsOfBlock block) 48
  let r := (ws.zip shaK).foldl (fun s p => shaRound s p.2 p.1) st
  { a := w32 (st.a + r.a), b := w32 (st.b + r.b), c := w32 (st.c + r.c),
    d := w32 (st.d + r.d), e := w32 (st.e + r.e), f := w32 (st.f + r.f),
    g := w32 (st.g + r.g), h := w32 (st.h + r.h) }

/-- Big-endian 8-byte encoding of a length value. -/
def be64 (n : Nat) : List Nat :=
  [n / 2 ^ 56 % 256, n / 2 ^ 48 % 256, n / 2 ^ 40 % 256, n / 2 ^ 32 % 256,
   n / 2 ^ 24 % 256, n / 2 ^ 16 % 256, n / 2 ^ 8 % 256, n % 256]

/-- SHA-256 message padding: append 0x80, zero bytes to 56 mod 64, then the
bit length as a big-endian 64-bit integer. -/
def padMsg (m : List Nat) : List Nat :=
  let z := (120 - (m.length + 1) % 64) % 64
  m ++ [128] ++ List.replicate z 0 ++ be64 (m.length * 8)

/-- Split a list into 64-byte blocks; the fuel bounds the number of blocks
and is structurally consumed so the definition reduces in the kernel. -/
def toBlocksF : Nat → List Nat → List (List Nat)
  | 0, _ => []
  | Nat.succ k, m =>
      if m.length < 64 then [] else m.take 64 :: toBlocksF k (m.drop 64)

/-- Split a padded message into 64-byte blocks. -/
def toBlocks (m : List Nat) : List (List Nat) := toBlocksF m.length m

/-- Big-endian 4-byte encoding of a 32-bit word. -/
def be32 (n : Nat) : List Nat :=
  [n / 2 ^ 24 % 256, n / 2 ^ 16 % 256, n / 2 ^ 8 % 256, n % 256]

/-- Serialize the final hash state to its 32-byte digest. -/
def digestBytes (st : Sha8) : List Nat :=
  be32 st.a ++ be32 st.b ++ be32 st.c ++ be32 st.d ++
  be32 st.e ++ be32 st.f ++ be32 st.g ++ be32 st.h

/-- SHA-256 digest (32 bytes) of a byte list, modelling sha256.Sum256. -/
def sha256Bytes (m : List Nat) : List Nat :=
  digestBytes ((toBlocks (padMsg m)).foldl compressBlock shaInit)

/-- Lower-case hexadecimal digit character for a value below 16. -/
def hexDigitChar (n : Nat) : Char :=
  match n with
  | 0 => '0' | 1 => '1' | 2 => '2' | 3 => '3' | 4 => '4' | 5 => '5'
  | 6 => '6' | 7 => '7' | 8 => '8' | 9 => '9' | 10 => 'a' | 11 => 'b'
  | 12 => 'c' | 13 => 'd' | 14 => 'e' | 15 => 'f' | _ => '0'

/-- Hex encoding of a byte list, modelling hex.EncodeToString. -/
def hexEncode : List Nat → List Char
  | [] => []
  | b :: bs => hexDigitChar (b / 16) :: hexDigitChar (b % 16) :: hexEncode bs

/-- Hash256Bytes from pkg/util/hash-util/sha256.go: reject the empty byte
slice, otherwise return the lower-case hex SHA-256 digest. -/
def Hash256Bytes (b : List Nat) : Except String String :=
  if b.length = 0 then Except.error "input byte slice cannot be empty"
  else Except.ok (String.mk (hexEncode (sha256Bytes b)))

/-! ### JSON syntax validity (encoding/json json.Unmarshal into an untyped value)

json.Unmarshal of a byte string into a Go interface value succeeds exactly
when the bytes are a syntactically valid JSON text (one value, optionally
surrounded by whitespace).  The parser below is a fuel-indexed checker for
that grammar, consuming the input and returning the unconsumed suffix. -/

/-- Skip JSON insignificant whitespace. -/
def skipWs : List Char → List Char
  | c :: cs =>
      if c = ' ' ∨ c = '\t' ∨ c = '\n' ∨ c = '\r' then skipWs cs else c :: cs
  | [] => []

/-- Hexadecimal digit test for JSON unicode escapes. -/
def isHexDig (c : Char) : Bool :=
  c.isDigit || ['a','b','c','d','e','f','A','B','C','D','E','F'].contains c

/-- Consume the remainder of a JSON string literal (the opening quote is
already consumed), handling escape sequences; fuel-indexed. -/
def strRest : Nat → List Char → Option (List Char)
  | 0, _ => none
  | _, [] => none
  | Nat.succ fuel, c :: cs =>
      if c = '"' then some cs
      else if c = '\\' then
        match cs with
        | [] => none
        | e :: cs2 =>
            if ['"', '\\', '/', 'b', 'f', 'n', 'r', 't'].contains e then
              strRest fuel cs2
            else if e = 'u' then
              match cs2 with
              | h1 :: h2 :: h3 :: h4 :: cs3 =>
                  if isHexDig h1 && isHexDig h2 && isHexDig h3 && isHexDig h4 then
                    strRest fuel cs3
                  else none
              | _ => none
            else none
      else if c.toNat < 32 then none
      else strRest fuel cs

/-- Drop a (possibly empty) run of decimal digits. -/
def dropDigits : List Char → List Char
  | c :: cs => if c.isDigit then dropDigits cs else c :: cs
  | [] => []

/-- Require at least one decimal digit, then drop the whole run. -/
def digits1 : List Char → Option (List Char)
  | c :: cs => if c.isDigit then some (dropDigits cs) else none
  | [] => none

/-- Optional JSON exponent part. -/
def numExp (cs : List Char) : Option (List Char) :=
  match cs with
  | c :: r =>
      if c = 'e' ∨ c = 'E' then
        match r with
        | s :: r2 => if s = '+' ∨ s = '-' then digits1 r2 else digits1 r
        | [] => none
      else some cs
  | [] => some []

/-- Optional JSON fraction part followed by the optional exponent. -/
def numFrac (cs : List Char) : Option (List Char) :=
  match cs with
  | '.' :: r =>
      match digits1 r with
      | some r2 => numExp r2
      | none => none
  | _ => numExp cs

/-- JSON number: optional minus, integer part without leading zeros,
optional fraction and exponent. -/
def numToken (cs : List Char) : Option (List Char) :=
  let cs1 := match cs with
    | '-' :: r => r
    | _ => cs
  match cs1 with
  | '0' :: r => numFrac r
  | c :: r => if c.isDigit then numFrac (dropDigits r) else none
  | [] => none

/-- Parsing mode of the JSON checker: a single value, the members of an
object after its opening brace, or the elements of an array after its
opening bracket. -/
inductive JMode where
  | val
  | members
  | elems
deriving Repr, DecidableEq

/-- The JSON grammar checker, fuel-indexed so it reduces in the kernel:
consume one production of the given mode and return the unconsumed
suffix. -/
def jsonP : Nat → JMode → List Char → Option (List Char)
  | 0, _, _ => none
  | Nat.succ fuel, JMode.val, cs =>
      (match skipWs cs with
      | [] => none
      | c :: r =>
          if c = '"' then strRest (r.length + 1) r
          else if c.toNat = 123 then
            match skipWs r with
            | d :: r2 => if d.toNat = 125 then some r2 else jsonP fuel JMode.members (d :: r2)
            | [] => none
          else if c = '[' then
            match skipWs r with
            | ']' :: r2 => some r2
            | r2 => jsonP fuel JMode.elems r2
          else if c = 't' then
            match r with
            | 'r' :: 'u' :: 'e' :: r2 => some r2
            | _ => none
          else if c = 'f' then
            match r with
            | 'a' :: 'l' :: 's' :: 'e' :: r2 => some r2
            | _ => none
          else if c = 'n' then
            match r with
            | 'u' :: 'l' :: 'l' :: r2 => some r2
            | _ => none
          else numToken (c :: r))
  | Nat.succ fuel, JMode.members, cs =>
      (match skipWs cs with
      | '"' :: r =>
          match strRest (r.length + 1) r with
          | none => none
          | some r2 =>
              match skipWs r2 with
              | ':' :: r3 =>
                  match jsonP fuel JMode.val r3 with
                  | none => none
                  | some r4 =>
                      match skipWs r4 with
                      | ',' :: r5 => jsonP fuel JMode.members r5
                      | d :: r5 => if d.toNat = 125 then some r5 else none
                      | [] => none
              | _ => none
      | _ => none)
  | Nat.succ fuel, JMode.elems, cs =>
      (match jsonP fuel JMode.val cs with
      | none => none
      | some r =>
          match skipWs r with
          | ',' :: r2 => jsonP fuel JMode.elems r2
          | ']' :: r2 => some r2
          | _ => none)

/-- Whether json.Unmarshal of the string into an untyped value succeeds:
the string is exactly one JSON value plus whitespace. -/
def jsonValid (s : String) : Bool :=
  match jsonP (s.length + 1) JMode.val s.data with
  | some rest => (skipWs rest).isEmpty
  | none => false

/-! ### Data model (internal/entity) -/

/-- internal/entity IdempotencyCache: the durable idempotency record, also
the value cached in Redis.  Timestamps are Int nanoseconds. -/
structure IdempotencyCache where
  key : String
  bodyHash : String
  responsePayload : String
  createdAt : Int
  updatedAt : Int
  expiredAt : Int
deriving Repr, DecidableEq

/-- internal/entity Transaction.  Amount is modelled as an integer number of
currency units; no claim performs float arithmetic on it, the field is
carried opaquely. -/
structure Transaction where
  id : String
  idempotencyCacheKey : String
  type : String
  amount : Int
  status : String
  consumerId : String
deriving Repr, DecidableEq

/-- internal/entity TransactionStatusPending. -/
def TransactionStatusPending : String := "pending"

/-- Modelled from the spec: the Consumer entity is not among the provided
source files (only its callers and tests are).  The spec consumes it through
a narrow interface: a consumer has an identity and a status, and the
protected operation requires the referenced consumer to exist and be
active. -/
structure Consumer where
  id : String
  status : String
deriving Repr, DecidableEq

/-- Modelled from the spec: entity.ConsumerStatusActive, the status value a
consumer must have for the business write to proceed. -/
def ConsumerStatusActive : String := "active"

/-- Errors produced by the service layer, mirroring the Go error values the
handler discriminates on (gorm sentinel errors, validator errors and the
fmt.Errorf messages of the services). -/
inductive SvcErr where
  | recordNotFound
  | invalidData
  | validationFailed
  | metaNotFound
  | consumerRequired
  | keyExists (k : String)
  | invalidTTL
  | redisSetFailed
deriving Repr, DecidableEq

deriving instance DecidableEq for Except

/-- The durable Postgres state: the transactions table and the
idempotency_cache table. -/
structure DBState where
  transactions : List Transaction
  idemRecords : List IdempotencyCache
deriving Repr, DecidableEq

/-- An entry of the Redis key space with its absolute expiry instant. -/
structure RedisEntry where
  key : String
  value : IdempotencyCache
  expiresAt : Int
deriving Repr, DecidableEq

/-- The Redis state.  getFails / setFails model a store-level outage of the
external system on reads respectively writes. -/
structure RedisState where
  entries : List RedisEntry
  getFails : Bool
  setFails : Bool
deriving Repr, DecidableEq

/-- Result of redisutil.GetJSON: the value, the redis.Nil miss error, or
any other error (outage, undecodable bytes). -/
inductive RedisGetResult where
  | found (v : IdempotencyCache)
  | nilErr
  | failure
deriving Repr, DecidableEq

/-- redisutil.GetJSON for IdempotencyCache values: an outage is a non-Nil
error; an absent or expired key is redis.Nil. -/
def getJSON (r : RedisState) (now : Int) (key : String) : RedisGetResult :=
  if r.getFails then RedisGetResult.failure
  else
    match r.entries.find? (fun e => e.key == key) with
    | some e => if now < e.expiresAt then RedisGetResult.found e.value else RedisGetResult.nilErr
    | none => RedisGetResult.nilErr

/-- redisutil.SetJSON: store the value under the key with the given TTL,
replacing any previous entry; fails when the store is unavailable. -/
def setJSON (r : RedisState) (key : String) (v : IdempotencyCache) (ttl now : Int) :
    Option RedisState :=
  if r.setFails then none
  else some { r with entries :=
    { key := key, value := v, expiresAt := now + ttl } ::
      r.entries.filter (fun e => !(e.key == key)) }

/-! ### HTTP boundary (pkg/util/http-util response helpers, gin context) -/

/-- The response envelope at the boundary, reduced to the fields the claims
observe: status code, message, error detail and the serialized data
payload. -/
structure HttpResp where
  status : Nat
  message : String
  err : Option String
  data : Option String
deriving Repr, DecidableEq

/-- httputil.InternalServerError. -/
def internalServerError (msg detail : String) : HttpResp :=
  { status := 500, message := msg, err := some detail, data := none }

/-- httputil.MethodNotAllowed. -/
def methodNotAllowed (msg detail : String) : HttpResp :=
  { status := 405, message := msg, err := some detail, data := none }

/-- httputil.BadRequest. -/
def badRequest (msg detail : String) : HttpResp :=
  { status := 400, message := msg, err := some detail, data := none }

/-- httputil.NotFound. -/
def notFound (msg detail : String) : HttpResp :=
  { status := 404, message := msg, err := some detail, data := none }

/-- httputil.Conflict. -/
def conflictResp (msg detail : String) : HttpResp :=
  { status := 409, message := msg, err := some detail, data := none }

/-- httputil.Success: 200 with a data payload (represented by its
serialization). -/
def successResp (msg : String) (d : Option String) : HttpResp :=
  { status := 200, message := msg, err := none, data := d }

/-- httputil.Created: 201 with a data payload. -/
def createdResp (msg : String) (d : Option String) : HttpResp :=
  { status := 201, message := msg, err := none, data := d }

/-- The middleware configuration read from the environment. -/
structure Env where
  idemEnabled : String
  idemKeyHdr : String
  idemPrefix : String
  idemTTLHours : String
deriving Repr, DecidableEq

/-- An inbound HTTP request.  rawBody is none when c.GetRawData fails;
parsedBody is the result of the external JSON binder (c.ShouldBindJSON)
on this body, none when binding fails. -/
structure Request where
  method : String
  headers : List (String × String)
  rawBody : Option (List Nat)
  parsedBody : Option Transaction
deriving Repr, DecidableEq

/-- gin Context.GetHeader: the header value, or the empty string when the
header is absent. -/
def getHeader (req : Request) (name : String) : String :=
  match req.headers.find? (fun p => p.1 == name) with
  | some p => p.2
  | none => ""

/-- pkg/context-data/meta-context IdemCompetencyMeta.  The middleware sets
only Key and BodyHash; the remaining fields keep their zero values. -/
structure IdemCompetencyMeta where
  key : String
  bodyHash : String
  responsePayload : String := ""
  statusCode : Int := 0
deriving Repr, DecidableEq

/-- What the Enforce middleware does with a request: either it writes a
terminal response and aborts, or it calls c.Next() with the context
carrying the injected metadata (none when nothing was injected). -/
inductive EnforceOutcome where
  | completed (resp : HttpResp)
  | proceeded (meta : Option IdemCompetencyMeta)
deriving Repr, DecidableEq

/-- The Enforce middleware of pkg/middleware/idempotency, line by line:
environment check, enabled check, verb check, key header check, body read,
body hash, Redis lookup, then conflict / replay / proceed. -/
def Enforce (env : Env) (redis : RedisState) (now : Int) (req : Request) : EnforceOutcome :=
  if env.idemEnabled = "" ∨ env.idemKeyHdr = "" ∨ env.idemPrefix = "" then
    EnforceOutcome.completed (internalServerError "Internal Server Error"
      "Idempotency enabled, key header, or prefix environment variables are not set")
  else if env.idemEnabled ≠ "TRUE" then
    EnforceOutcome.proceeded none
  else if req.method ≠ "POST" ∧ req.method ≠ "PUT" ∧ req.method ≠ "DELETE" then
    EnforceOutcome.completed (methodNotAllowed "Method Not Allowed"
      "Idempotency middleware only supports POST, PUT, or DELETE methods")
  else
    let idemKey := getHeader req env.idemKeyHdr
    if idemKey = "" then
      EnforceOutcome.completed (badRequest "Bad Request"
        ("Idempotency key header '" ++ env.idemKeyHdr ++ "' is required"))
    else
      match req.rawBody with
      | none => EnforceOutcome.completed (internalServerError "Internal Server Error"
          "Failed to read request body")
      | some bodyBytes =>
        match Hash256Bytes bodyBytes with
        | Except.error _ => EnforceOutcome.completed (internalServerError
            "Internal Server Error" "Failed to hash request body")
        | Except.ok bodyHash =>
          let redisKey := env.idemPrefix ++ idemKey
          match getJSON redis now redisKey with
          | RedisGetResult.failure => EnforceOutcome.completed
              (internalServerError "Internal Server Error" "redis error")
          | RedisGetResult.found cachedData =>
              if cachedData.bodyHash ≠ bodyHash then
                EnforceOutcome.completed (conflictResp "Conflict"
                  "Request with the same Idempotency-Key but different body has already been processed")
              else if cachedData.responsePayload ≠ "" ∧
                  ¬ jsonValid cachedData.responsePayload then
                EnforceOutcome.completed (internalServerError "Internal Server Error"
                  "Failed to unmarshal cached response payload")
              else
                EnforceOutcome.completed (successResp "Request already processed"
                  (if cachedData.responsePayload = "" then none
                   else some cachedData.responsePayload))
          | RedisGetResult.nilErr =>
              EnforceOutcome.proceeded (some { key := idemKey, bodyHash := bodyHash })

/-! ### Service layer (internal/service, internal/repository) -/

/-- Nanoseconds per hour, Go time.Hour. -/
def nsPerHour : Int := 3600000000000

/-- The ttl_hour constant of the idempotency cache service: the Redis TTL
is a compile-time 24 hours. -/
def ttl_hour : Int := 24

/-- Accumulate a run of decimal digits left to right. -/
def digitsValAux : List Char → Nat → Option Nat
  | [], acc => some acc
  | c :: cs, acc =>
      if c.isDigit then digitsValAux cs (acc * 10 + (c.toNat - 48)) else none

/-- Value of a non-empty all-digit character list. -/
def digitsVal : List Char → Option Nat
  | [] => none
  | cs => digitsValAux cs 0

/-- strconv.Atoi: an optional sign followed by one or more decimal
digits. -/
def atoi (s : String) : Option Int :=
  match s.data with
  | '-' :: cs => (digitsVal cs).map (fun n => -(n : Int))
  | '+' :: cs => (digitsVal cs).map (fun n => (n : Int))
  | cs => (digitsVal cs).map (fun n => (n : Int))

/-- idempotencyCacheRepository.GetIdempotencyCacheByKey via gorm First:
first record matching the key, or gorm.ErrRecordNotFound. -/
def getIdemCacheByKey (records : List IdempotencyCache) (key : String) :
    Except SvcErr IdempotencyCache :=
  match records.find? (fun r => r.key == key) with
  | some r => Except.ok r
  | none => Except.error SvcErr.recordNotFound

/-- Serialization of a Transaction by encoding/json, modelled at the
interface: a JSON object string over the entity fields (json.Marshal of a
Transaction value never fails).  The claims treat this payload as opaque. -/
def marshalTransaction (t : Transaction) : String :=
  "\x7b\"id\":\"" ++ t.id ++ "\",\"idempotencyCacheKey\":\"" ++
    t.idempotencyCacheKey ++ "\",\"type\":\"" ++ t.type ++ "\",\"amount\":" ++
    toString t.amount ++ ",\"status\":\"" ++ t.status ++ "\",\"consumerId\":\"" ++
    t.consumerId ++ "\"\x7d"

/-- Lower-case hexadecimal digit test for UUID validation. -/
def isLowerHexDig (c : Char) : Bool :=
  c.isDigit || ['a','b','c','d','e','f'].contains c

/-- The uuid4 rule of go-playground/validator.v9: 8-4-4-4-12 lower-case hex
with version nibble 4 and variant nibble in 8, 9, a, b. -/
def isUUID4 (s : String) : Bool :=
  let cs := s.data
  cs.length == 36 &&
  (List.range 36).all (fun i =>
    let c := cs.getD i ' '
    if i == 8 || i == 13 || i == 18 || i == 23 then c == '-'
    else if i == 14 then c == '4'
    else if i == 19 then ['8','9','a','b'].contains c
    else isLowerHexDig c)

/-- Transaction.Validate: the validator tags of the Transaction entity
(required idempotencyCacheKey; type one of payment, withdrawal,
disbursement; non-zero amount; consumerId a version-4 UUID). -/
def validateTransaction (t : Transaction) : Bool :=
  !(t.idempotencyCacheKey == "") &&
  ["payment", "withdrawal", "disbursement"].contains t.type &&
  !(t.amount == 0) &&
  !(t.consumerId == "") && isUUID4 t.consumerId

/-- Modelled from the spec: consumerService.GetConsumerByID (the consumer
service source is not among the provided files).  The spec's interface: the
consumer referenced by the transaction is looked up in the durable store;
a missing consumer surfaces as a not-found error passed through unchanged. -/
def getConsumerByID (consumers : List Consumer) (id : String) : Except SvcErr Consumer :=
  match consumers.find? (fun c => c.id == id) with
  | some c => Except.ok c
  | none => Except.error SvcErr.recordNotFound

/-- idempotencyCacheService.CreateIdempotencyCache: extract the metadata,
marshal the response payload, parse IDEMPOTENCY_TTL_HOURS, then in one gorm
transaction re-check the key, insert the durable record, and write the
Redis entry with the constant 24-hour TTL.  A failing step inside the
transaction rolls the durable writes back, so the function returns the
committed database state actually left behind. -/
def CreateIdempotencyCacheSvc (env : Env) (meta : Option IdemCompetencyMeta) (now : Int)
    (payload : Transaction) (db : DBState) (redis : RedisState) :
    Except SvcErr IdempotencyCache × DBState × RedisState :=
  match meta with
  | none => (Except.error SvcErr.metaNotFound, db, redis)
  | some m =>
    let respStr := marshalTransaction payload
    match atoi env.idemTTLHours with
    | none => (Except.error SvcErr.invalidTTL, db, redis)
    | some ttl =>
      let idemData : IdempotencyCache :=
        { key := m.key, bodyHash := m.bodyHash, responsePayload := respStr,
          createdAt := now, updatedAt := now,
          expiredAt := now + ttl * nsPerHour }
      -- db.Transaction closure: staged writes commit only if every step succeeds
      let staged := db
      match getIdemCacheByKey staged.idemRecords m.key with
      | Except.ok existingIdem =>
          if existingIdem.key ≠ "" then
            (Except.error (SvcErr.keyExists m.key), db, redis)
          else
            let staged2 := { staged with idemRecords := staged.idemRecords ++ [idemData] }
            match setJSON redis (env.idemPrefix ++ m.key) idemData (ttl_hour * nsPerHour) now with
            | none => (Except.error SvcErr.redisSetFailed, db, redis)
            | some redis2 => (Except.ok idemData, staged2, redis2)
      | Except.error SvcErr.recordNotFound =>
          let staged2 := { staged with idemRecords := staged.idemRecords ++ [idemData] }
          match setJSON redis (env.idemPrefix ++ m.key) idemData (ttl_hour * nsPerHour) now with
          | none => (Except.error SvcErr.redisSetFailed, db, redis)
          | some redis2 => (Except.ok idemData, staged2, redis2)
      | Except.error e => (Except.error e, db, redis)

/-- transactionService.CreateTransaction: extract the metadata, stamp the
idempotency key on the entity, validate it, then in a gorm transaction
check the consumer, insert the pending transaction, and call
CreateIdempotencyCache (which opens its own transaction on the shared
handle, so its re-check sees the committed state).  Any error rolls the
outer staged writes back. -/
def CreateTransactionSvc (env : Env) (meta : Option IdemCompetencyMeta) (now : Int)
    (consumers : List Consumer) (t : Transaction) (db : DBState) (redis : RedisState) :
    Except SvcErr Transaction × DBState × RedisState :=
  match meta with
  | none => (Except.error SvcErr.metaNotFound, db, redis)
  | some m =>
    let t1 := { t with idempotencyCacheKey := m.key }
    if ¬ validateTransaction t1 then
      (Except.error SvcErr.validationFailed, db, redis)
    else
      -- db.Transaction closure
      if t1.consumerId = "" then
        (Except.error SvcErr.consumerRequired, db, redis)
      else
        match getConsumerByID consumers t1.consumerId with
        | Except.error e => (Except.error e, db, redis)
        | Except.ok consumer =>
          if consumer.status ≠ ConsumerStatusActive then
            (Except.error SvcErr.invalidData, db, redis)
          else
            let t2 := { t1 with status := TransactionStatusPending }
            -- outer staged write of the business entity
            let outerTxns := db.transactions ++ [t2]
            match CreateIdempotencyCacheSvc env (some m) now t2 db redis with
            | (Except.error e, _, redis1) => (Except.error e, db, redis1)
            | (Except.ok _, db1, redis1) =>
                (Except.ok t2,
                 { transactions := outerTxns, idemRecords := db1.idemRecords },
                 redis1)

/-! ### Handler and the full request pipeline -/

/-- TransactionHandler.CreateTransaction: bind the JSON body, call the
service, translate its errors into the response envelope. -/
def transactionCreateHandler (env : Env) (meta : Option IdemCompetencyMeta) (now : Int)
    (consumers : List Consumer) (req : Request) (db : DBState) (redis : RedisState) :
    HttpResp × DBState × RedisState :=
  match req.parsedBody with
  | none => (badRequest "Invalid request body" "bind error", db, redis)
  | some t =>
    match CreateTransactionSvc env meta now consumers t db redis with
    | (Except.error SvcErr.validationFailed, db1, r1) =>
        (badRequest "Failed to create transaction" "validation errors", db1, r1)
    | (Except.error SvcErr.recordNotFound, db1, r1) =>
        (notFound "Consumer not found" "No consumer found with the given ID", db1, r1)
    | (Except.error SvcErr.invalidData, db1, r1) =>
        (badRequest "Invalid transaction data"
          "Transaction data is invalid, this could be due to missing required fields or incorrect data types",
          db1, r1)
    | (Except.error _, db1, r1) =>
        (internalServerError "Failed to create transaction" "internal error", db1, r1)
    | (Except.ok ct, db1, r1) =>
        (createdResp "Transaction created successfully" (some (marshalTransaction ct)), db1, r1)

/-- The outcome of one POST /transactions request through the route with
the idempotency middleware attached. -/
structure PipelineResult where
  resp : HttpResp
  db : DBState
  redis : RedisState
  handlerInvoked : Bool
deriving Repr, DecidableEq

/-- One POST /transactions request through Enforce and, if the middleware
lets it pass, the transaction handler. -/
def handleTransactionPost (env : Env) (now : Int) (consumers : List Consumer)
    (req : Request) (db : DBState) (redis : RedisState) : PipelineResult :=
  match Enforce env redis now req with
  | EnforceOutcome.completed resp =>
      { resp := resp, db := db, redis := redis, handlerInvoked := false }
  | EnforceOutcome.proceeded meta =>
      let r := transactionCreateHandler env meta now consumers req db redis
      { resp := r.1, db := r.2.1, redis := r.2.2, handlerInvoked := true }

/-- The same request handled with no idempotency middleware on the route:
the handler runs on a context carrying no idempotency metadata. -/
def handleNoMiddleware (env : Env) (now : Int) (consumers : List Consumer)
    (req : Request) (db : DBState) (redis : RedisState) :
    HttpResp × DBState × RedisState :=
  transactionCreateHandler env none now consumers req db redis

/-! ### Concrete fixtures used by witnesses and counterexamples -/

/-- A correctly configured environment matching the repository's .env. -/
def envOK : Env :=
  { idemEnabled := "TRUE", idemKeyHdr := "Idempotency-Key",
    idemPrefix := "idempotency_cache:", idemTTLHours := "24" }

/-- An empty durable store. -/
def dbEmpty : DBState := { transactions := [], idemRecords := [] }

/-- A one-byte request body. -/
def bodyA : List Nat := [97]

/-- The digest the hasher assigns to bodyA. -/
def hashA : String :=
  match Hash256Bytes bodyA with
  | Except.ok d => d
  | Except.error _ => ""

/-- A POST request carrying key K1 and bodyA. -/
def reqA : Request :=
  { method := "POST", headers := [("Idempotency-Key", "K1")],
    rawBody := some bodyA, parsedBody := none }

/-- A cached record for K1 whose body hash matches bodyA and whose stored
payload is valid JSON. -/
def cacheGood : IdempotencyCache :=
  { key := "K1", bodyHash := hashA, responsePayload := "123",
    createdAt := 0, updatedAt := 0, expiredAt := 1000000000000000 }

/-- A cached record for K1 whose body hash matches bodyA but whose stored
payload is not valid JSON. -/
def cacheBad : IdempotencyCache :=
  { key := "K1", bodyHash := hashA, responsePayload := "x",
    createdAt := 0, updatedAt := 0, expiredAt := 1000000000000000 }

/-- A healthy Redis holding the given record under the K1 cache key. -/
def redisWith (cd : IdempotencyCache) : RedisState :=
  { entries := [{ key := "idempotency_cache:K1", value := cd,
                  expiresAt := 1000000000000000 }],
    getFails := false, setFails := false }

/-- An empty healthy Redis. -/
def redisEmpty : RedisState := { entries := [], getFails := false, setFails := false }

/-- Request metadata for key K2 as the middleware would inject it. -/
def metaK2 : IdemCompetencyMeta :=
  { key := "K2", bodyHash := hashA }

/-- A transaction payload that passes entity validation. -/
def txnOK : Transaction :=
  { id := "t1", idempotencyCacheKey := "", type := "payment", amount := 150000,
    status := "", consumerId := "a1b2c3d4-e5f6-4a7b-8c9d-0e1f2a3b4c5d" }

/-- The active consumer txnOK refers to. -/
def consumerActive : Consumer :=
  { id := "a1b2c3d4-e5f6-4a7b-8c9d-0e1f2a3b4c5d", status := "active" }

/-! ### Helper lemmas -/

/-- Hex encoding doubles the length. -/
theorem length_hexEncode (l : List Nat) : (hexEncode l).length = 2 * l.length := by
  induction l with
  | nil => rfl
  | cons b bs ih => simp [hexEncode, ih]; ring

/-- The serialized digest always has 32 bytes, whatever the hash state. -/
theorem length_digestBytes (st : Sha8) : (digestBytes st).length = 32 := rfl

/-- The SHA-256 digest of any message has 32 bytes. -/
theorem length_sha256Bytes (m : List Nat) : (sha256Bytes m).length = 32 :=
  length_digestBytes _

/-- On a non-empty byte slice the hasher succeeds with the hex digest. -/
theorem Hash256Bytes_ok (b : List Nat) (h : b ≠ []) :
    Hash256Bytes b = Except.ok (String.mk (hexEncode (sha256Bytes b))) := by
  unfold Hash256Bytes
  rw [if_neg]
  simpa using h

/-! ### Claim theorems -/

/-- C9: the fingerprint hasher is deterministic — equal byte sequences get
the identical digest — every digest of a non-empty input is a 64-character
(hex) string, and the empty input is rejected with an error instead of any
digest. -/
theorem hash_deterministic_fixed_length (b : List Nat) (hb : b ≠ []) :
    Hash256Bytes [] = Except.error "input byte slice cannot be empty"
    ∧ (∀ b2 : List Nat, b2 = b → Hash256Bytes b2 = Hash256Bytes b)
    ∧ ∃ d : String, Hash256Bytes b = Except.ok d ∧ d.length = 64 := by
  refine ⟨rfl, fun b2 h2 => by rw [h2], ?_⟩
  refine ⟨String.mk (hexEncode (sha256Bytes b)), Hash256Bytes_ok b hb, ?_⟩
  show (hexEncode (sha256Bytes b)).length = 64
  rw [length_hexEncode, length_sha256Bytes b]

/-- C9 witness: the theorem applied to the one-byte body. -/
theorem hash_deterministic_fixed_length_witness :
    Hash256Bytes [] = Except.error "input byte slice cannot be empty"
    ∧ (∀ b2 : List Nat, b2 = [97] → Hash256Bytes b2 = Hash256Bytes [97])
    ∧ ∃ d : String, Hash256Bytes [97] = Except.ok d ∧ d.length = 64 :=
  hash_deterministic_fixed_length [97] (by decide)

/-- C10: when any of the three configuration variables is empty the
middleware answers 500 for every request — whatever the verb, headers, body
or store states — before every other rule, so the business handler never
runs and no state changes; in particular an unset enforcement flag cannot
disable enforcement. -/
theorem env_check_precedes_all_rules (env : Env) (now : Int)
    (consumers : List Consumer) (req : Request) (db : DBState) (redis : RedisState)
    (h : env.idemEnabled = "" ∨ env.idemKeyHdr = "" ∨ env.idemPrefix = "") :
    handleTransactionPost env now consumers req db redis =
      { resp := internalServerError "Internal Server Error"
          "Idempotency enabled, key header, or prefix environment variables are not set",
        db := db, redis := redis, handlerInvoked := false } := by
  simp only [handleTransactionPost, Enforce, if_pos h]

/-- C10 witness: an unset enforcement flag yields 500 for a GET request
with no idempotency header. -/
theorem env_check_precedes_all_rules_witness :
    handleTransactionPost { envOK with idemEnabled := "" } 0 [] reqA dbEmpty redisEmpty =
      { resp := internalServerError "Internal Server Error"
          "Idempotency enabled, key header, or prefix environment variables are not set",
        db := dbEmpty, redis := redisEmpty, handlerInvoked := false } :=
  env_check_precedes_all_rules _ 0 [] reqA dbEmpty redisEmpty (Or.inl rfl)

/-- C1 counterexample: a request whose key is found in the fast cache with
a body hash equal to the hash of its raw body — the claim's antecedent, as
the first two conjuncts verify — is answered 500, not 200, when the stored
response payload does not deserialize, so the claim as stated is false. -/
theorem replay_unparseable_payload_returns_500 :
    getJSON (redisWith cacheBad) 0 ("idempotency_cache:" ++ getHeader reqA "Idempotency-Key")
      = RedisGetResult.found cacheBad
    ∧ Hash256Bytes bodyA = Except.ok cacheBad.bodyHash
    ∧ handleTransactionPost envOK 0 [] reqA dbEmpty (redisWith cacheBad) =
        { resp := internalServerError "Internal Server Error"
            "Failed to unmarshal cached response payload",
          db := dbEmpty, redis := redisWith cacheBad, handlerInvoked := false } :=
  ⟨by decide, rfl, by decide⟩

/-- C1 (amended): for every request whose idempotency key is found in the
fast cache with a body hash equal to the hash of the request's raw body,
provided the stored response payload deserializes (it is empty or valid
JSON — true of every payload the record phase stores), the middleware
returns it with success status 200 and message Request already processed,
and the business handler is never invoked; the stores are untouched. -/
theorem replay_valid_payload_returns_200 (env : Env) (now : Int)
    (consumers : List Consumer) (req : Request) (db : DBState) (redis : RedisState)
    (bs : List Nat) (cd : IdempotencyCache)
    (h1 : env.idemEnabled = "TRUE") (h2 : env.idemKeyHdr ≠ "") (h3 : env.idemPrefix ≠ "")
    (hm : req.method = "POST" ∨ req.method = "PUT" ∨ req.method = "DELETE")
    (hk : getHeader req env.idemKeyHdr ≠ "")
    (hb : req.rawBody = some bs)
    (hget : getJSON redis now (env.idemPrefix ++ getHeader req env.idemKeyHdr)
              = RedisGetResult.found cd)
    (hhash : Hash256Bytes bs = Except.ok cd.bodyHash)
    (hjson : cd.responsePayload = "" ∨ jsonValid cd.responsePayload = true) :
    handleTransactionPost env now consumers req db redis =
      { resp := successResp "Request already processed"
          (if cd.responsePayload = "" then none else some cd.responsePayload),
        db := db, redis := redis, handlerInvoked := false } := by
  rcases hm with hm | hm | hm <;> rcases hjson with hp | hp <;>
    simp [handleTransactionPost, Enforce, h1, h2, h3, hm, hk, hb, hget, hhash, hp]

/-- C1 witness: the amended theorem applied to the healthy cached record. -/
theorem replay_valid_payload_returns_200_witness :
    handleTransactionPost envOK 0 [] reqA dbEmpty (redisWith cacheGood) =
      { resp := successResp "Request already processed"
          (if cacheGood.responsePayload = "" then none else some cacheGood.responsePayload),
        db := dbEmpty, redis := redisWith cacheGood, handlerInvoked := false } :=
  replay_valid_payload_returns_200 envOK 0 [] reqA dbEmpty (redisWith cacheGood)
    bodyA cacheGood rfl (by decide) (by decide) (Or.inl rfl) (by decide) rfl
    (by decide) rfl (Or.inr (by decide))

/-- C2: a request whose key is found in the fast cache with a body hash
different from the hash of its raw body is answered 409 Conflict; the
business handler is not invoked and both stores — hence the existing
idempotency record and the original business entity — are left unchanged. -/
theorem conflict_on_hash_mismatch (env : Env) (now : Int)
    (consumers : List Consumer) (req : Request) (db : DBState) (redis : RedisState)
    (bs : List Nat) (cd : IdempotencyCache) (dg : String)
    (h1 : env.idemEnabled = "TRUE") (h2 : env.idemKeyHdr ≠ "") (h3 : env.idemPrefix ≠ "")
    (hm : req.method = "POST" ∨ req.method = "PUT" ∨ req.method = "DELETE")
    (hk : getHeader req env.idemKeyHdr ≠ "")
    (hb : req.rawBody = some bs)
    (hget : getJSON redis now (env.idemPrefix ++ getHeader req env.idemKeyHdr)
              = RedisGetResult.found cd)
    (hhash : Hash256Bytes bs = Except.ok dg)
    (hne : cd.bodyHash ≠ dg) :
    handleTransactionPost env now consumers req db redis =
      { resp := conflictResp "Conflict"
          "Request with the same Idempotency-Key but different body has already been processed",
        db := db, redis := redis, handlerInvoked := false } := by
  rcases hm with hm | hm | hm <;>
    simp [handleTransactionPost, Enforce, h1, h2, h3, hm, hk, hb, hget, hhash, hne]

/-- C2 witness: key K1 bound to the hash of bodyA, retried with the
different one-byte body 98. -/
theorem conflict_on_hash_mismatch_witness :
    handleTransactionPost envOK 0 [] { reqA with rawBody := some [98] } dbEmpty
        (redisWith cacheGood) =
      { resp := conflictResp "Conflict"
          "Request with the same Idempotency-Key but different body has already been processed",
        db := dbEmpty, redis := redisWith cacheGood, handlerInvoked := false } :=
  conflict_on_hash_mismatch envOK 0 [] _ dbEmpty (redisWith cacheGood) [98] cacheGood
    (String.mk (hexEncode (sha256Bytes [98]))) rfl (by decide) (by decide)
    (Or.inl rfl) (by decide) rfl (by decide)
    (Hash256Bytes_ok [98] (by decide)) (by decide)

/-- C7: with enforcement enabled (and the middleware configured), a request
whose verb is not POST, PUT or DELETE is rejected 405; otherwise a request
whose idempotency key header is absent or empty is rejected 400; in both
cases the business handler is not invoked and neither store changes. -/
theorem method_and_key_validation_order (env : Env) (now : Int)
    (consumers : List Consumer) (req : Request) (db : DBState) (redis : RedisState)
    (h1 : env.idemEnabled = "TRUE") (h2 : env.idemKeyHdr ≠ "") (h3 : env.idemPrefix ≠ "") :
    (¬(req.method = "POST" ∨ req.method = "PUT" ∨ req.method = "DELETE") →
      handleTransactionPost env now consumers req db redis =
        { resp := methodNotAllowed "Method Not Allowed"
            "Idempotency middleware only supports POST, PUT, or DELETE methods",
          db := db, redis := redis, handlerInvoked := false })
    ∧ ((req.method = "POST" ∨ req.method = "PUT" ∨ req.method = "DELETE") →
      getHeader req env.idemKeyHdr = "" →
      handleTransactionPost env now consumers req db redis =
        { resp := badRequest "Bad Request"
            ("Idempotency key header '" ++ env.idemKeyHdr ++ "' is required"),
          db := db, redis := redis, handlerInvoked := false }) := by
  constructor
  · intro hm
    push_neg at hm
    obtain ⟨hp, hu, hd⟩ := hm
    simp [handleTransactionPost, Enforce, h1, h2, h3, hp, hu, hd]
  · intro hm hk
    rcases hm with hm | hm | hm <;>
      simp [handleTransactionPost, Enforce, h1, h2, h3, hm, hk]

/-- C7 witness: a GET request is answered 405; a POST request with no
idempotency key header is answered 400; neither reaches the handler. -/
theorem method_and_key_validation_order_witness :
    handleTransactionPost envOK 0 [] { reqA with method := "GET" } dbEmpty redisEmpty =
      { resp := methodNotAllowed "Method Not Allowed"
          "Idempotency middleware only supports POST, PUT, or DELETE methods",
        db := dbEmpty, redis := redisEmpty, handlerInvoked := false }
    ∧ handleTransactionPost envOK 0 [] { reqA with headers := [] } dbEmpty redisEmpty =
      { resp := badRequest "Bad Request"
          ("Idempotency key header '" ++ envOK.idemKeyHdr ++ "' is required"),
        db := dbEmpty, redis := redisEmpty, handlerInvoked := false } :=
  ⟨(method_and_key_validation_order envOK 0 [] { reqA with method := "GET" }
      dbEmpty redisEmpty rfl (by decide) (by decide)).1 (by decide),
   (method_and_key_validation_order envOK 0 [] { reqA with headers := [] }
      dbEmpty redisEmpty rfl (by decide) (by decide)).2 (Or.inl rfl) (by decide)⟩

/-- C8: during lookup, a fast-cache error other than a key miss (a
store-level outage) is fatal: the middleware answers 500 and aborts; the
business handler never runs and neither the durable store nor the cache is
touched (fail-closed). -/
theorem cache_outage_fail_closed (env : Env) (now : Int)
    (consumers : List Consumer) (req : Request) (db : DBState) (redis : RedisState)
    (bs : List Nat)
    (h1 : env.idemEnabled = "TRUE") (h2 : env.idemKeyHdr ≠ "") (h3 : env.idemPrefix ≠ "")
    (hm : req.method = "POST" ∨ req.method = "PUT" ∨ req.method = "DELETE")
    (hk : getHeader req env.idemKeyHdr ≠ "")
    (hb : req.rawBody = some bs) (hbs : bs ≠ [])
    (hgf : redis.getFails = true) :
    handleTransactionPost env now consumers req db redis =
      { resp := internalServerError "Internal Server Error" "redis error",
        db := db, redis := redis, handlerInvoked := false } := by
  rcases hm with hm | hm | hm <;>
    simp [handleTransactionPost, Enforce, h1, h2, h3, hm, hk, hb,
      Hash256Bytes_ok bs hbs, getJSON, hgf]

/-- C8 witness: the outage applied to the POST request with bodyA. -/
theorem cache_outage_fail_closed_witness :
    handleTransactionPost envOK 0 [] reqA dbEmpty
        { entries := [], getFails := true, setFails := false } =
      { resp := internalServerError "Internal Server Error" "redis error",
        db := dbEmpty, redis := { entries := [], getFails := true, setFails := false },
        handlerInvoked := false } :=
  cache_outage_fail_closed envOK 0 [] reqA dbEmpty _ bodyA rfl (by decide)
    (by decide) (Or.inl rfl) (by decide) rfl (by decide) rfl

/-- A healthy Redis whose writes fail (set outage). -/
def redisSetFail : RedisState := { entries := [], getFails := false, setFails := true }

/-- The configured environment with a 1-hour TTL. -/
def envTTL1 : Env := { envOK with idemTTLHours := "1" }

/-- A durable record already claimed under key K2. -/
def recK2 : IdempotencyCache := { cacheGood with key := "K2" }

/-- A durable store already holding recK2. -/
def dbWithK2 : DBState := { transactions := [], idemRecords := [recK2] }

/-- With no metadata in the context, the transaction handler leaves both
stores untouched: the service aborts before any write. -/
theorem createHandler_state_no_meta (env : Env) (now : Int) (consumers : List Consumer)
    (req : Request) (db : DBState) (redis : RedisState) :
    (transactionCreateHandler env none now consumers req db redis).2.1 = db
    ∧ (transactionCreateHandler env none now consumers req db redis).2.2 = redis := by
  cases hp : req.parsedBody <;>
    simp [transactionCreateHandler, CreateTransactionSvc, hp]

/-- C3 counterexample: with the fast-cache write failing, the record phase
returns an error and the durable store it leaves behind contains no record
at all — the transaction was rolled back, not preserved — refuting the
claim that a fast-cache write failure is non-fatal and leaves the durable
commit intact. -/
theorem cache_write_failure_not_preserved_cex :
    CreateIdempotencyCacheSvc envOK (some metaK2) 0 txnOK dbEmpty redisSetFail =
      (Except.error SvcErr.redisSetFailed, dbEmpty, redisSetFail)
    ∧ (CreateIdempotencyCacheSvc envOK (some metaK2) 0 txnOK dbEmpty redisSetFail).2.1.idemRecords
        = [] :=
  ⟨by decide, by decide⟩

/-- C3 (amended): the record phase performs the fast-cache write inside the
single durable transaction, before commit; when that write fails the whole
unit of work aborts: the call returns an error and the durable store is
returned unchanged — the durable record is rolled back rather than
preserved, so the failure is fatal to the recording. -/
theorem cache_write_failure_rolls_back (env : Env) (m : IdemCompetencyMeta) (now : Int)
    (payload : Transaction) (db : DBState) (redis : RedisState) (ttl : Int)
    (httl : atoi env.idemTTLHours = some ttl)
    (hnk : getIdemCacheByKey db.idemRecords m.key = Except.error SvcErr.recordNotFound)
    (hset : redis.setFails = true) :
    CreateIdempotencyCacheSvc env (some m) now payload db redis =
      (Except.error SvcErr.redisSetFailed, db, redis) := by
  simp [CreateIdempotencyCacheSvc, httl, hnk, setJSON, hset]

/-- C3 witness: the amended theorem applied to the K2 metadata on an empty
durable store and a write-failing Redis. -/
theorem cache_write_failure_rolls_back_witness :
    CreateIdempotencyCacheSvc envOK (some metaK2) 0 txnOK dbEmpty redisSetFail =
      (Except.error SvcErr.redisSetFailed, dbEmpty, redisSetFail) :=
  cache_write_failure_rolls_back envOK metaK2 0 txnOK dbEmpty redisSetFail 24
    (by decide) (by decide) rfl

/-- C4: inside the record phase's unit of work, the durable store is
re-checked for an existing record under the key before creating one; when
such a record exists the whole unit of work aborts with the distinct
key-already-exists error and the durable store is returned exactly as it
was — neither the business entity staged in the same unit of work nor a
second idempotency record is persisted. -/
theorem durable_recheck_aborts_unit_of_work (env : Env) (m : IdemCompetencyMeta)
    (now : Int) (consumers : List Consumer) (t : Transaction) (db : DBState)
    (redis : RedisState) (c : Consumer) (ttl : Int) (ex : IdempotencyCache)
    (hval : validateTransaction { t with idempotencyCacheKey := m.key } = true)
    (hcid : t.consumerId ≠ "")
    (hcons : getConsumerByID consumers t.consumerId = Except.ok c)
    (hact : c.status = ConsumerStatusActive)
    (httl : atoi env.idemTTLHours = some ttl)
    (hex : getIdemCacheByKey db.idemRecords m.key = Except.ok ex)
    (hexk : ex.key ≠ "") :
    CreateTransactionSvc env (some m) now consumers t db redis =
      (Except.error (SvcErr.keyExists m.key), db, redis) := by
  simp [CreateTransactionSvc, hval, hcid, hcons, hact,
    CreateIdempotencyCacheSvc, httl, hex, hexk]

/-- C4 witness: a valid transaction for key K2 against a store already
holding a record under K2: the unit of work aborts and the store keeps
exactly its prior contents. -/
theorem durable_recheck_aborts_unit_of_work_witness :
    CreateTransactionSvc envOK (some metaK2) 0 [consumerActive] txnOK dbWithK2 redisEmpty =
      (Except.error (SvcErr.keyExists "K2"), dbWithK2, redisEmpty) :=
  durable_recheck_aborts_unit_of_work envOK metaK2 0 [consumerActive] txnOK dbWithK2
    redisEmpty consumerActive 24 recK2 (by decide) (by decide) (by decide) rfl
    (by decide) (by decide) (by decide)

/-- C5 counterexample: with IDEMPOTENCY_TTL_HOURS set to 1, a successful
record phase stamps the durable record with a 1-hour expiry but writes the
fast-cache entry with the fixed 24-hour TTL, so the cache entry's horizon
exceeds the durable expiresAt — refuting the claim that the configured TTL
is applied identically to both and that the cache never expires later. -/
theorem cache_ttl_exceeds_record_ttl_cex :
    (match (CreateIdempotencyCacheSvc envTTL1 (some metaK2) 0 txnOK dbEmpty redisEmpty).1 with
      | Except.ok rec => rec.expiredAt
      | Except.error _ => 0) = nsPerHour
    ∧ ((CreateIdempotencyCacheSvc envTTL1 (some metaK2) 0 txnOK dbEmpty redisEmpty).2.2.entries.map
        (fun e => e.expiresAt)) = [24 * nsPerHour]
    ∧ nsPerHour < 24 * nsPerHour :=
  ⟨by decide, by decide, by decide⟩

/-- C5 (amended): a successful record phase stamps the durable record with
expiresAt = now + (configured TTL) hours while the fast-cache entry always
receives the fixed 24-hour TTL of the ttl_hour constant; the two horizons
coincide exactly when the configured TTL is 24 hours, and otherwise
diverge (the cache entry expiring later whenever the configured TTL is
below 24). -/
theorem ttl_applied_to_record_and_cache (env : Env) (m : IdemCompetencyMeta)
    (now : Int) (payload : Transaction) (db : DBState) (redis : RedisState) (ttl : Int)
    (httl : atoi env.idemTTLHours = some ttl)
    (hnk : getIdemCacheByKey db.idemRecords m.key = Except.error SvcErr.recordNotFound)
    (hset : redis.setFails = false) :
    CreateIdempotencyCacheSvc env (some m) now payload db redis =
      (Except.ok { key := m.key, bodyHash := m.bodyHash,
                   responsePayload := marshalTransaction payload,
                   createdAt := now, updatedAt := now,
                   expiredAt := now + ttl * nsPerHour },
       { db with idemRecords := db.idemRecords ++
           [{ key := m.key, bodyHash := m.bodyHash,
              responsePayload := marshalTransaction payload,
              createdAt := now, updatedAt := now,
              expiredAt := now + ttl * nsPerHour }] },
       { redis with entries :=
           { key := env.idemPrefix ++ m.key,
             value := { key := m.key, bodyHash := m.bodyHash,
                        responsePayload := marshalTransaction payload,
                        createdAt := now, updatedAt := now,
                        expiredAt := now + ttl * nsPerHour },
             expiresAt := now + 24 * nsPerHour } ::
             redis.entries.filter (fun e => !(e.key == env.idemPrefix ++ m.key)) })
    ∧ (ttl = 24 → now + 24 * nsPerHour = now + ttl * nsPerHour) := by
  constructor
  · simp [CreateIdempotencyCacheSvc, httl, hnk, setJSON, hset, ttl_hour]
  · intro h
    rw [h]

/-- C5 witness: the amended theorem at the configured 24-hour TTL, where
both horizons coincide. -/
theorem ttl_applied_to_record_and_cache_witness :
    CreateIdempotencyCacheSvc envOK (some metaK2) 0 txnOK dbEmpty redisEmpty =
      (Except.ok { key := metaK2.key, bodyHash := metaK2.bodyHash,
                   responsePayload := marshalTransaction txnOK,
                   createdAt := 0, updatedAt := 0,
                   expiredAt := 0 + 24 * nsPerHour },
       { dbEmpty with idemRecords := dbEmpty.idemRecords ++
           [{ key := metaK2.key, bodyHash := metaK2.bodyHash,
              responsePayload := marshalTransaction txnOK,
              createdAt := 0, updatedAt := 0,
              expiredAt := 0 + 24 * nsPerHour }] },
       { redisEmpty with entries :=
           { key := envOK.idemPrefix ++ metaK2.key,
             value := { key := metaK2.key, bodyHash := metaK2.bodyHash,
                        responsePayload := marshalTransaction txnOK,
                        createdAt := 0, updatedAt := 0,
                        expiredAt := 0 + 24 * nsPerHour },
             expiresAt := 0 + 24 * nsPerHour } ::
             redisEmpty.entries.filter (fun e => !(e.key == envOK.idemPrefix ++ metaK2.key)) })
    ∧ ((24 : Int) = 24 → (0 : Int) + 24 * nsPerHour = 0 + 24 * nsPerHour) :=
  ttl_applied_to_record_and_cache envOK metaK2 0 txnOK dbEmpty redisEmpty 24
    (by decide) (by decide) rfl

/-- C6 counterexample: with the enforcement flag left empty — which is not
TRUE, so the claim says the request must pass through to the handler — a
well-formed POST is instead answered 500 and the business handler is never
invoked. -/
theorem unset_flag_does_not_bypass_cex :
    handleTransactionPost { envOK with idemEnabled := "" } 0 [consumerActive] reqA
        dbEmpty redisEmpty =
      { resp := internalServerError "Internal Server Error"
          "Idempotency enabled, key header, or prefix environment variables are not set",
        db := dbEmpty, redis := redisEmpty, handlerInvoked := false } := by
  decide

/-- C6 (amended): when the three configuration variables are non-empty and
the enforcement flag holds any value other than TRUE, every request —
regardless of verb, key presence or body — proceeds to the business
handler, the outcome equals a run with no middleware attached, and no
idempotency record (indeed no state change at all) is ever produced,
because the handler runs without injected metadata and the service aborts
before writing. -/
theorem disabled_flag_bypasses_middleware (env : Env) (now : Int)
    (consumers : List Consumer) (req : Request) (db : DBState) (redis : RedisState)
    (h0 : env.idemEnabled ≠ "") (h1 : env.idemEnabled ≠ "TRUE")
    (h2 : env.idemKeyHdr ≠ "") (h3 : env.idemPrefix ≠ "") :
    handleTransactionPost env now consumers req db redis =
      { resp := (handleNoMiddleware env now consumers req db redis).1,
        db := db, redis := redis, handlerInvoked := true }
    ∧ (handleNoMiddleware env now consumers req db redis).2.1 = db
    ∧ (handleNoMiddleware env now consumers req db redis).2.2 = redis := by
  have hh := createHandler_state_no_meta env now consumers req db redis
  refine ⟨?_, hh.1, hh.2⟩
  have e1 : Enforce env redis now req = EnforceOutcome.proceeded none := by
    simp [Enforce, h0, h1, h2, h3]
  simp only [handleTransactionPost, handleNoMiddleware, e1]
  simp [hh.1, hh.2]

/-- C6 witness: the amended theorem with the flag set to FALSE on a
well-formed POST request. -/
theorem disabled_flag_bypasses_middleware_witness :
    handleTransactionPost { envOK with idemEnabled := "FALSE" } 0 [consumerActive] reqA
        dbEmpty redisEmpty =
      { resp := (handleNoMiddleware { envOK with idemEnabled := "FALSE" } 0 [consumerActive]
          reqA dbEmpty redisEmpty).1,
        db := dbEmpty, redis := redisEmpty, handlerInvoked := true }
    ∧ (handleNoMiddleware { envOK with idemEnabled := "FALSE" } 0 [consumerActive]
        reqA dbEmpty redisEmpty).2.1 = dbEmpty
    ∧ (handleNoMiddleware { envOK with idemEnabled := "FALSE" } 0 [consumerActive]
        reqA dbEmpty redisEmpty).2.2 = redisEmpty :=
  disabled_flag_bypasses_middleware _ 0 [consumerActive] reqA dbEmpty redisEmpty
    (by decide) (by decide) (by decide) (by decide)
